import Mathlib

/-!
Verification of `kfserving/storage.py` (module `kfserving.storage`), the
URI-to-backend dispatch and retrieval component of the kfserving repository.

The Python module is shallowly embedded below.  Python strings are Lean
`String`s (manipulated through their character lists), the ambient world
(filesystem, object-store clients, HTTP) is an explicit `World` record of
pure functions, and every raising code path is an `Except StorageError`
result.  Each definition mirrors the source function whose name it carries.
-/

namespace KFServing

/-! ## Python string primitives

Models of the Python `str` operations used by `storage.py`. -/

/-- Boolean prefix test on character lists, recursing on the pattern
first (an empty pattern is a prefix of anything). -/
def isPfx : List Char → List Char → Bool
  | [], _ => true
  | _ :: _, [] => false
  | a :: as, b :: bs => a == b && isPfx as bs

/-- Model of Python `s.startswith(pre)`. -/
def pyStartsWith (s pre : String) : Bool :=
  isPfx pre.toList s.toList

/-- Model of Python `s.endswith(suf)`. -/
def pyEndsWith (s suf : String) : Bool :=
  isPfx suf.toList.reverse s.toList.reverse

/-- Helper for `replaceFirst`: replaces the first occurrence of the
nonempty pattern `old` by `new` in the list, leaving the list unchanged
when `old` does not occur. -/
def replaceFirstAux (old new : List Char) : List Char → List Char
  | [] => []
  | c :: rest =>
    if isPfx old (c :: rest) then new ++ (c :: rest).drop old.length
    else c :: replaceFirstAux old new rest

/-- Model of Python `s.replace(old, new, 1)`.  When `old` is empty,
Python inserts `new` once in front of the string. -/
def replaceFirst (s old new : String) : String :=
  if old.toList.isEmpty then (new.toList ++ s.toList).asString
  else (replaceFirstAux old.toList new.toList s.toList).asString

/-- Model of Python `s.strip(c)` for a one-character strip set: removes
every leading and trailing occurrence of `c`. -/
def pyStrip (s : String) (c : Char) : String :=
  (((s.toList.dropWhile (· = c)).reverse.dropWhile (· = c)).reverse).asString

/-- Model of Python `s.strip()` (whitespace strip, as used on object keys). -/
def pyStripWs (s : String) : String :=
  (((s.toList.dropWhile Char.isWhitespace).reverse.dropWhile
      Char.isWhitespace).reverse).asString

/-- Model of Python `s.split(c, 1)`: the part before the first occurrence
of `c`, and — when `c` occurs — the remainder after it. -/
def pySplitOnce (s : String) (c : Char) : String × Option String :=
  let l := s.toList
  let pre := l.takeWhile (· ≠ c)
  if pre.length = l.length then (s, none)
  else (pre.asString, some ((l.drop (pre.length + 1)).asString))

/-- Model of Python `os.path.basename` (as `os.path.split(p)[1]`): the
portion of `p` after its last `/`. -/
def osBasename (p : String) : String :=
  ((p.toList.reverse.takeWhile (· ≠ '/')).reverse).asString

/-- Model of Python `os.path.split(p)[0]` (`os.path.dirname`): the portion
of `p` before its last `/`, without that slash. -/
def osDirname (p : String) : String :=
  let l := p.toList
  (l.take (l.length - (l.reverse.takeWhile (· ≠ '/')).length - 1)).asString

/-- Model of Python `os.path.join(a, b)` for two components: an absolute
`b` discards `a`; otherwise a single `/` separates the parts. -/
def pathJoin (a b : String) : String :=
  if pyStartsWith b "/" then b
  else if a = "" then b
  else if pyEndsWith a "/" then a ++ b
  else a ++ "/" ++ b

/-- Model of Python `s[n:]`. -/
def pyDrop (s : String) (n : Nat) : String :=
  (s.toList.drop n).asString

/-- Model of Python `bool(s)` on a string: nonempty strings are truthy. -/
def pyBool (s : String) : Bool :=
  s ≠ ""

/-- Model of Python `os.getenv(name, default)` over an optional binding. -/
def getenvD (v : Option String) (d : String) : String :=
  v.getD d

/-! ## `urllib.parse.urlparse`

Only the fields `storage.py` reads (`scheme`, `netloc`, `path`) are
modelled, for the `scheme://netloc/path?query#fragment` shapes the module
feeds it. -/

structure UrlParts where
  scheme : String
  netloc : String
  path : String
  deriving Repr, DecidableEq

/-- Splits a character list at the first `://`, returning the part before
(the scheme) and the part after. -/
def breakScheme : List Char → Option (List Char × List Char)
  | [] => none
  | ':' :: '/' :: '/' :: rest => some ([], rest)
  | c :: rest => (breakScheme rest).map (fun p => (c :: p.1, p.2))

/-- Model of `urllib.parse.urlparse`: `netloc` runs to the first of
`/ ? #` after the `://`, and `path` runs from there to the first `? #`.
A string without `://` is all path (up to any query or fragment). -/
def urlParse (uri : String) : UrlParts :=
  match breakScheme uri.toList with
  | some (sch, rest) =>
    let netloc := rest.takeWhile (fun c => c ≠ '/' && c ≠ '?' && c ≠ '#')
    let after := rest.drop netloc.length
    let path := after.takeWhile (fun c => c ≠ '?' && c ≠ '#')
    ⟨sch.asString, netloc.asString, path.asString⟩
  | none =>
    ⟨"", "", (uri.toList.takeWhile (fun c => c ≠ '?' && c ≠ '#')).asString⟩

/-! ## The regular expressions of `storage.py`

`_URI_RE = "https?://(.+)/(.+)"` and
`_BLOB_RE = "https://(.+?).blob.core.windows.net/(.+)"`, used through
`re.search`.  `.` matches any character except a newline; `re.search`
scans starting positions left to right. -/

/-- Consumes a literal `http://` or `https://` at the head of the list. -/
def httpTail : List Char → Option (List Char)
  | 'h' :: 't' :: 't' :: 'p' :: 's' :: ':' :: '/' :: '/' :: rest => some rest
  | 'h' :: 't' :: 't' :: 'p' :: ':' :: '/' :: '/' :: rest => some rest
  | _ => none

/-- Consumes a literal `https://` at the head of the list. -/
def httpsTail : List Char → Option (List Char)
  | 'h' :: 't' :: 't' :: 'p' :: 's' :: ':' :: '/' :: '/' :: rest => some rest
  | _ => none

/-- After at least one group-1 character has been consumed, decides
whether `(.+)/(.+)` can complete: a further `/` with at least one
non-newline character after it, all group-1 characters non-newline. -/
def hasSlashSplitGo : List Char → Bool
  | [] => false
  | '/' :: rest =>
    (match rest with
     | c :: _ => c ≠ '\n'
     | [] => false) || hasSlashSplitGo rest
  | c :: rest => c ≠ '\n' && hasSlashSplitGo rest

/-- Decides whether `(.+)/(.+)` matches at the head of the list. -/
def hasSlashSplit : List Char → Bool
  | [] => false
  | c :: rest => c ≠ '\n' && hasSlashSplitGo rest

/-- `re.search(_URI_RE, ·)` on a character list: some starting position
carries `https?://` followed by `(.+)/(.+)`. -/
def uriReSearchL : List Char → Bool
  | [] => false
  | c :: rest =>
    (match httpTail (c :: rest) with
     | some r => hasSlashSplit r
     | none => false) || uriReSearchL rest

/-- Model of `re.search(_URI_RE, uri) is not None`. -/
def uriReSearch (uri : String) : Bool :=
  uriReSearchL uri.toList

/-- Matches the fixed-length middle of `_BLOB_RE` —
`.blob.core.windows.net/` with `.` as any non-newline character —
returning the remainder. -/
def matchBlobHost : List Char → Option (List Char)
  | c1 :: 'b' :: 'l' :: 'o' :: 'b' :: c2 :: 'c' :: 'o' :: 'r' :: 'e' ::
    c3 :: 'w' :: 'i' :: 'n' :: 'd' :: 'o' :: 'w' :: 's' ::
    c4 :: 'n' :: 'e' :: 't' :: '/' :: rest =>
    if c1 ≠ '\n' && c2 ≠ '\n' && c3 ≠ '\n' && c4 ≠ '\n' then some rest
    else none
  | _ => none

/-- One backtracking attempt for `_BLOB_RE` at the current split point:
with the (reversed) group-1 candidate `acc` consumed, tries to match the
host middle and a nonempty greedy group 2 against `l`. -/
def blobTryHere (acc l : List Char) : Option (List Char × List Char) :=
  if acc.isEmpty then none
  else
    match matchBlobHost l with
    | some r =>
      let g2 := r.takeWhile (· ≠ '\n')
      if g2.isEmpty then none else some (acc.reverse, g2)
    | none => none

/-- Lazy group 1 of `_BLOB_RE`: tries the shortest nonempty prefix first
(`(.+?)` semantics), backtracking by extending group 1 one character at a
time; group 2 is the greedy `(.+)`, i.e. the longest non-newline run,
which must be nonempty. -/
def blobGroups (acc : List Char) : List Char → Option (List Char × List Char)
  | [] => none
  | c :: rest =>
    match blobTryHere acc (c :: rest) with
    | some g => some g
    | none => if c ≠ '\n' then blobGroups (c :: acc) rest else none

/-- `re.search(_BLOB_RE, ·)` on a character list: the leftmost starting
position where the full pattern matches, returning the two groups. -/
def blobSearchL : List Char → Option (List Char × List Char)
  | [] => none
  | c :: rest =>
    match (match httpsTail (c :: rest) with
           | some r => blobGroups [] r
           | none => none) with
    | some g => some g
    | none => blobSearchL rest

/-- Model of `re.search(_BLOB_RE, uri)`, returning
`(match.group(1), match.group(2))` when it matches. -/
def blobSearch (uri : String) : Option (String × String) :=
  (blobSearchL uri.toList).map (fun p => (p.1.asString, p.2.asString))

/-! ## `mimetypes.guess_type`

Model of the Python standard-library `mimetypes.guess_type` (an external
collaborator of `storage.py`), restricted to the standard table entries
relevant to artifact names: the suffix rewrite map, the encodings map and
the extension-to-type map, applied to the URL path exactly as
`posixpath.splitext` iterates them. -/

/-- Model of `posixpath.splitext`: splits at the last `.` of the last
path component, unless every character between the component start and
that dot is itself a dot (leading-dot names carry no extension). -/
def splitExtPy (p : String) : String × String :=
  let l := p.toList
  let name := (l.reverse.takeWhile (· ≠ '/')).reverse
  let stem := name.dropWhile (· = '.')
  let ext := stem.reverse.takeWhile (· ≠ '.')
  if stem.isEmpty || ext.length = stem.length then (p, "")
  else
    ((l.take (l.length - ext.length - 1)).asString,
     ('.' :: ext.reverse).asString)

/-- Association-list lookup used for the mime tables. -/
def assocFind (m : List (String × String)) (k : String) : Option String :=
  (m.find? (fun e => e.1 = k)).map (fun e => e.2)

/-- The `mimetypes.suffix_map` entries. -/
def mimeSuffixMap : List (String × String) :=
  [(".svgz", ".svg.gz"), (".tgz", ".tar.gz"), (".taz", ".tar.gz"),
   (".tz", ".tar.gz"), (".tbz2", ".tar.bz2"), (".txz", ".tar.xz")]

/-- The `mimetypes.encodings_map` entries. -/
def mimeEncodingsMap : List (String × String) :=
  [(".gz", "gzip"), (".Z", "compress"), (".bz2", "bzip2"),
   (".xz", "xz"), (".br", "br")]

/-- The `mimetypes.types_map` entries that artifact names can reach. -/
def mimeTypesMap : List (String × String) :=
  [(".tar", "application/x-tar"), (".zip", "application/zip"),
   (".json", "application/json"), (".txt", "text/plain"),
   (".html", "text/html"), (".csv", "text/csv"),
   (".bin", "application/octet-stream"), (".xml", "text/xml"),
   (".gtar", "application/x-gtar"), (".pdf", "application/pdf")]

/-- The `while ext in suffix_map` rewrite loop of `guess_type`, with fuel
bounding the number of rewrites. -/
def mimeSuffixLoop : Nat → String × String → String × String
  | 0, be => be
  | fuel + 1, (base, ext) =>
    match assocFind mimeSuffixMap ext with
    | some suf => mimeSuffixLoop fuel (splitExtPy (base ++ suf))
    | none => (base, ext)

/-- Model of `mimetypes.guess_type(url)`: returns
`(type, encoding)`. -/
def guessType (url : String) : Option String × Option String :=
  let be := mimeSuffixLoop 8 (splitExtPy url)
  match assocFind mimeEncodingsMap be.2 with
  | some enc =>
    let be2 := splitExtPy be.1
    (assocFind mimeTypesMap be2.2, some enc)
  | none => (assocFind mimeTypesMap be.2, none)

/-! ## Data model -/

/-- The raising code paths of `storage.py`, one constructor per `raise`
site (plus the implicit `ValueError` of the tuple unpacking in
`_download_blob`). -/
inductive StorageError where
  /-- `download`: `Exception("Cannot recognize storage type for " + uri ...)`. -/
  | unrecognizedScheme (uri : String)
  /-- `_download_local`: `RuntimeError("Local path %s does not exist.")`. -/
  | localPathNotFound (uri : String)
  /-- `_download_s3` / `_download_gcs` / `_download_blob`:
  `RuntimeError("Failed to fetch model. The path or model %s does not exist.")`. -/
  | artifactNotFound (uri : String)
  /-- `_download_from_uri`: `ValueError('No filename contained in URI: %s')`. -/
  | missingFilename (uri : String)
  /-- `_download_from_uri`: `RuntimeError("URI: %s returned a %s response code.")`. -/
  | fetchFailed (uri : String) (status : Nat)
  /-- `_download_from_uri`: `RuntimeError("URI: %s did not respond with 'Content-Type' ...")`. -/
  | contentTypeMismatch (uri : String)
  /-- `_download_blob`: the `ValueError` Python raises at
  `container_name, prefix = storage_url.split("/", 1)` when the split
  yields a single part. -/
  | blobUnpackError (uri : String)
  /-- `_download_from_uri`: failure of `gzip.GzipFile` while streaming a
  body that is not gzip data. -/
  | gzipReadError (uri : String)
  /-- `_download_from_uri`: failure of `tarfile.open` / `zipfile.ZipFile`
  on a written file that is not an archive of the expected kind. -/
  | archiveReadError (uri : String)
  deriving Repr, DecidableEq

/-- A minio listing entry: `obj.object_name` and `obj.is_dir`. -/
structure S3Object where
  object_name : String
  is_dir : Bool
  deriving Repr, DecidableEq

/-- Abstract HTTP body bytes: uninterpreted bytes, a tar or zip archive
holding the given member names, or a gzip wrapper around further bytes. -/
inductive HttpBody where
  | rawBytes (tag : String)
  | tarArchive (entries : List String)
  | zipArchive (entries : List String)
  | gzipped (inner : HttpBody)
  deriving Repr, DecidableEq

/-- The response fields `_download_from_uri` reads: `status_code`,
`headers.get('Content-Type', '')` and the streamed body. -/
structure HttpResponse where
  status_code : Nat
  content_type : String
  body : HttpBody
  deriving Repr, DecidableEq

/-- The ambient world of `storage.py`: filesystem queries, the fresh
temporary directory `tempfile.mkdtemp()` would yield, and the listing /
fetch results of the external cloud and HTTP clients.  `httpResponse`
abstracts `requests.get` (headers from the `<hostname>-headers`
environment lookup are folded into it). -/
structure World where
  pathExists : String → Bool
  isDir : String → Bool
  listDir : String → List String
  tmpDir : String
  s3ListObjects : String → String → List S3Object
  gcsListBlobs : String → String → List String
  blobListBlobs : String → String → List String
  httpResponse : String → HttpResponse

/-- The observable outcome of a successful `download` call: the returned
path, the file paths written under the destination, and the transient
files written then deleted (the intermediate archive). -/
structure Outcome where
  retPath : String
  writes : List String
  removed : List String
  deriving Repr, DecidableEq

/-- Modelled from the spec: `MODEL_MOUNT_DIRS`, the reserved
runtime-managed mount-point path imported from
`kfserving.kfmodel_repository`, a repository module absent from `src/`;
the spec calls it "a reserved 'runtime-managed mount' path prefix" under
which downloads are delegated to an external agent. -/
def MODEL_MOUNT_DIRS : String := "/mnt/models"

/-! ## Backend fetchers -/

/-- `Storage._download_s3` lines 84–86: bucket name and bucket path from
`uri.replace(_S3_PREFIX, "", 1).split("/", 1)`, the path defaulting to
the empty string. -/
def s3BucketArgs (uri : String) : String × String :=
  let args := pySplitOnce (replaceFirst uri "s3://" "") '/'
  (args.1, args.2.getD "")

/-- The materialization loop body of `Storage._download_s3` (lines
89–98): the destination path written for one non-directory object —
the object key with the bucket path stripped and slashes trimmed, falling
back to the full object key when that is empty — or `none` for a
directory entry. -/
def s3ObjectDest (bucket_path temp_dir : String) (obj : S3Object) :
    Option String :=
  let subdir_object_key := pyStrip (replaceFirst obj.object_name bucket_path "") '/'
  if obj.is_dir then none
  else if subdir_object_key = "" then some (pathJoin temp_dir obj.object_name)
  else some (pathJoin temp_dir subdir_object_key)

/-- `Storage._download_s3` over an already-obtained listing: every
iterated object bumps `count` (lines 88–98), so the
`ArtifactNotFound` raise at lines 99–101 fires exactly on an empty
listing. -/
def downloadS3OnListing (uri temp_dir : String) (objects : List S3Object) :
    Except StorageError (List String) :=
  let bucket_path := (s3BucketArgs uri).2
  let writes := objects.filterMap (s3ObjectDest bucket_path temp_dir)
  if objects.length = 0 then .error (.artifactNotFound uri)
  else .ok writes

/-- `Storage._download_s3`: lists `bucket_name` under `bucket_path`
through the minio client and materializes the result. -/
def downloadS3 (w : World) (uri temp_dir : String) :
    Except StorageError (List String) :=
  downloadS3OnListing uri temp_dir
    (w.s3ListObjects (s3BucketArgs uri).1 (s3BucketArgs uri).2)

/-- `Storage._download_gcs` lines 109–111: bucket name and bucket path
from `uri.replace(_GCS_PREFIX, "", 1).split("/", 1)`. -/
def gcsBucketArgs (uri : String) : String × String :=
  let args := pySplitOnce (replaceFirst uri "gs://" "") '/'
  (args.1, args.2.getD "")

/-- `Storage._download_gcs` lines 113–115: the listing argument is the
bucket path with a trailing `/` appended when missing. -/
def gcsListArg (uri : String) : String :=
  let bucket_path := (gcsBucketArgs uri).2
  if pyEndsWith bucket_path "/" then bucket_path else bucket_path ++ "/"

/-- `Storage._download_gcs` line 120: a blob's relative key — the blob
name with the original (unslashed) bucket path stripped and slashes
trimmed. -/
def gcsRelKey (uri name : String) : String :=
  pyStrip (replaceFirst name (gcsBucketArgs uri).2 "") '/'

/-- The materialization loop body of `Storage._download_gcs` (lines
118–131): the destination written for one blob, or `none` when the
whitespace-stripped relative key is empty (line 127 skips the download
for such a blob — there is no full-key fallback here). -/
def gcsBlobDest (uri temp_dir name : String) : Option String :=
  let subdir_object_key := gcsRelKey uri name
  if pyStripWs subdir_object_key ≠ "" then
    some (pathJoin temp_dir subdir_object_key)
  else none

/-- `Storage._download_gcs` over an already-obtained listing: every
iterated blob bumps `count`, so the `ArtifactNotFound` raise at lines
132–134 fires exactly on an empty listing. -/
def downloadGcsOnListing (uri temp_dir : String) (blobs : List String) :
    Except StorageError (List String) :=
  let writes := blobs.filterMap (gcsBlobDest uri temp_dir)
  if blobs.length = 0 then .error (.artifactNotFound uri)
  else .ok writes

/-- `Storage._download_gcs`: lists the bucket with the slashed listing
argument of line 116 and materializes the result. -/
def downloadGcs (w : World) (uri temp_dir : String) :
    Except StorageError (List String) :=
  downloadGcsOnListing uri temp_dir
    (w.gcsListBlobs (gcsBucketArgs uri).1 (gcsListArg uri))

/-- The per-blob destination computation of `Storage._download_blob`
(lines 157–168): names holding a `/` are split, the requested key part
is sliced off the head by length, a leading slash dropped, and the parts
rejoined under `out_dir`. -/
def blobDestPath (out_dir pfx name : String) : String :=
  if name.toList.contains '/' then
    let head := osDirname name
    let tail := osBasename name
    let head2 := pyDrop head pfx.length
    let head3 := if pyStartsWith head2 "/" then pyDrop head2 1 else head2
    pathJoin (pathJoin out_dir head3) tail
  else pathJoin out_dir name

/-- `Storage._download_blob`: re-matches `_BLOB_RE`, splits the captured
`storage_url` on its first `/` into container and key — Python's tuple
unpacking raises `ValueError` when there is no `/` — then lists and
materializes the blobs, raising `ArtifactNotFound` on an empty
listing. -/
def downloadBlob (w : World) (uri out_dir : String) :
    Except StorageError (List String) :=
  match blobSearch uri with
  | none => .error (.unrecognizedScheme uri)
  | some (_, storage_url) =>
    match (pySplitOnce storage_url '/').2 with
    | none => .error (.blobUnpackError uri)
    | some pfx =>
      let container_name := (pySplitOnce storage_url '/').1
      let blobs := w.blobListBlobs container_name pfx
      let writes := blobs.map (blobDestPath out_dir pfx)
      if blobs.length = 0 then .error (.artifactNotFound uri)
      else .ok writes

/-- `Storage._download_local` (lines 206–225): strips the first
`file://`, fails when the path does not exist, returns the bare path
when no destination was requested, and otherwise symlinks each glob
entry (the directory's immediate entries, or the path itself) to
`out_dir/basename`. -/
def downloadLocal (w : World) (uri : String) (out_dir : Option String) :
    Except StorageError Outcome :=
  let local_path := replaceFirst uri "file://" ""
  if w.pathExists local_path then
    match out_dir with
    | none => .ok ⟨local_path, [], []⟩
    | some od =>
      let sources :=
        if w.isDir local_path then (w.listDir local_path).map (pathJoin local_path)
        else [local_path]
      .ok ⟨od, sources.map (fun src => pathJoin od (osBasename src)), []⟩
  else .error (.localPathNotFound uri)

/-- `tarfile.open(path, 'r')` member listing: mode `'r'` transparently
reads a gzip-compressed tar as well. -/
def tarEntriesOf : HttpBody → Option (List String)
  | .tarArchive entries => some entries
  | .gzipped (.tarArchive entries) => some entries
  | _ => none

/-- `Storage._download_from_uri` lines 262–271: extract a tar or zip
archive written at `local_path` into `out_dir` and delete the archive;
other media kinds leave the single written file. -/
def extractPhase (uri out_dir local_path : String) (mt : Option String)
    (written : HttpBody) : Except StorageError Outcome :=
  if mt = some "application/x-tar" then
    match tarEntriesOf written with
    | some entries =>
      .ok ⟨out_dir, local_path :: entries.map (pathJoin out_dir), [local_path]⟩
    | none => .error (.archiveReadError uri)
  else if mt = some "application/zip" then
    match written with
    | .zipArchive entries =>
      .ok ⟨out_dir, local_path :: entries.map (pathJoin out_dir), [local_path]⟩
    | _ => .error (.archiveReadError uri)
  else .ok ⟨out_dir, [local_path], []⟩

/-- `Storage._download_from_uri` (lines 228–271): filename and media
guess from the parsed path, the `MissingFilename` check, the streamed
GET with its status and the three content-type checks of lines 244–252,
gzip decompression renaming the written file to `filename + ".tar"`
(lines 254–258), and the archive extraction phase. -/
def downloadFromUri (w : World) (uri out_dir : String) :
    Except StorageError Outcome :=
  let url := urlParse uri
  let filename := osBasename url.path
  let g := guessType url.path
  let local_path := pathJoin out_dir filename
  if filename = "" then .error (.missingFilename uri)
  else
    let response := w.httpResponse uri
    if response.status_code ≠ 200 then
      .error (.fetchFailed uri response.status_code)
    else if g.1 = some "application/zip" ∧
        pyStartsWith response.content_type "application/zip" = false then
      .error (.contentTypeMismatch uri)
    else if g.1 = some "application/x-tar" ∧
        pyStartsWith response.content_type "application/x-tar" = false then
      .error (.contentTypeMismatch uri)
    else if (g.1 ≠ some "application/zip" ∧ g.1 ≠ some "application/x-tar") ∧
        pyStartsWith response.content_type "application/octet-stream" = false then
      .error (.contentTypeMismatch uri)
    else if g.2 = some "gzip" then
      match response.body with
      | .gzipped inner =>
        extractPhase uri out_dir (pathJoin out_dir (filename ++ ".tar")) g.1 inner
      | _ => .error (.gzipReadError uri)
    else extractPhase uri out_dir local_path g.1 response.body

/-- The environment variables `Storage._create_minio_client` reads. -/
structure MinioEnv where
  aws_endpoint_url : Option String
  s3_use_https : Option String
  aws_access_key_id : Option String
  aws_secret_access_key : Option String
  aws_region : Option String
  deriving Repr, DecidableEq

/-- The constructor arguments handed to `Minio(...)`. -/
structure MinioArgs where
  endpoint : String
  access_key : String
  secret_key : String
  region : String
  secure : Bool
  deriving Repr, DecidableEq

/-- `Storage._create_minio_client` (lines 273–282): parses
`AWS_ENDPOINT_URL` (default `http://s3.amazonaws.com`); when the parsed
scheme is nonempty `use_ssl` is `scheme == 'https'`, otherwise the
truthiness of `S3_USE_HTTPS` (default `"true"`). -/
def createMinioClient (env : MinioEnv) : MinioArgs :=
  let url := urlParse (getenvD env.aws_endpoint_url "http://s3.amazonaws.com")
  let use_ssl : Bool :=
    if url.scheme ≠ "" then decide (url.scheme = "https")
    else pyBool (getenvD env.s3_use_https "true")
  { endpoint := url.netloc,
    access_key := getenvD env.aws_access_key_id "",
    secret_key := getenvD env.aws_secret_access_key "",
    region := getenvD env.aws_region "",
    secure := use_ssl }

/-- The dispatch chain of `Storage.download` lines 59–79, entered with
the destination directory resolved. -/
def dispatchDownload (w : World) (uri out_dir : String) (is_local : Bool) :
    Except StorageError Outcome :=
  if pyStartsWith uri "gs://" then
    (downloadGcs w uri out_dir).map (fun ws => ⟨out_dir, ws, []⟩)
  else if pyStartsWith uri "s3://" then
    (downloadS3 w uri out_dir).map (fun ws => ⟨out_dir, ws, []⟩)
  else if (blobSearch uri).isSome then
    (downloadBlob w uri out_dir).map (fun ws => ⟨out_dir, ws, []⟩)
  else if is_local then downloadLocal w uri (some out_dir)
  else if uriReSearch uri then downloadFromUri w uri out_dir
  else if pyStartsWith uri MODEL_MOUNT_DIRS then .ok ⟨out_dir, [], []⟩
  else .error (.unrecognizedScheme uri)

/-- `Storage.download` (lines 44–79): detects a local source (the
`file://` marker or an existing path), serves the no-destination local
case as a pure pass-through, substitutes a fresh temporary directory for
a missing destination, and dispatches. -/
def download (w : World) (uri : String) (out_dir : Option String) :
    Except StorageError Outcome :=
  let is_local := pyStartsWith uri "file://" || w.pathExists uri
  match out_dir with
  | none =>
    if is_local then downloadLocal w uri none
    else dispatchDownload w uri w.tmpDir is_local
  | some od => dispatchDownload w uri od is_local

/-! ## Concrete worlds used by witnesses and counterexamples -/

/-- A world with no local files, empty listings and a failing HTTP
endpoint. -/
def emptyWorld : World :=
  { pathExists := fun _ => false
    isDir := fun _ => false
    listDir := fun _ => []
    tmpDir := "/tmp/kfserving"
    s3ListObjects := fun _ _ => []
    gcsListBlobs := fun _ _ => []
    blobListBlobs := fun _ _ => []
    httpResponse := fun _ => ⟨404, "", .rawBytes "none"⟩ }

/-- A world whose s3 listing holds exactly one directory marker. -/
def s3MarkerWorld : World :=
  { emptyWorld with s3ListObjects := fun _ _ => [⟨"bar/", true⟩] }

/-- A world whose gcs listing holds exactly the blob `m`. -/
def gcsSkipWorld : World :=
  { emptyWorld with gcsListBlobs := fun _ _ => ["m"] }

/-- A world in which every local path exists and is a plain file. -/
def allFilesWorld : World :=
  { emptyWorld with pathExists := fun _ => true }

/-! ## Generic facts about the embedded fetchers -/

/-- The `count == 0` check of `_download_s3` sees every iterated entry,
directory markers included: the error fires exactly on an empty
listing. -/
theorem downloadS3OnListing_error_iff (uri d : String)
    (objects : List S3Object) :
    downloadS3OnListing uri d objects = .error (.artifactNotFound uri) ↔
      objects = [] := by
  cases objects <;> simp [downloadS3OnListing]

/-- The `count == 0` check of `_download_gcs` likewise sees every
iterated blob: the error fires exactly on an empty listing. -/
theorem downloadGcsOnListing_error_iff (uri d : String)
    (blobs : List String) :
    downloadGcsOnListing uri d blobs = .error (.artifactNotFound uri) ↔
      blobs = [] := by
  cases blobs <;> simp [downloadGcsOnListing]

/-! ## Claim C1 -/

/-- C1 counterexample: an s3 listing consisting of a single directory
marker (and so containing no real entry) is a silent success with an
empty destination — `download` returns the destination with no writes
instead of failing with ArtifactNotFound, because the loop counts
directory markers too. -/
theorem s3_marker_only_listing_silently_succeeds :
    s3MarkerWorld.s3ListObjects "foo" "bar" = [⟨"bar/", true⟩]
    ∧ (s3MarkerWorld.s3ListObjects "foo" "bar").all (fun o => o.is_dir) = true
    ∧ download s3MarkerWorld "s3://foo/bar" (some "/out") =
        .ok ⟨"/out", [], []⟩ :=
  ⟨rfl, rfl, rfl⟩

/-- C1 (amended): for both object-store backends the download fails with
ArtifactNotFound exactly when the listing for the requested key portion
is empty; a listing consisting only of directory markers is counted as
nonempty and succeeds silently, materializing nothing. -/
theorem objectstore_error_iff_listing_empty (w : World) (uri d : String) :
    (downloadS3 w uri d = .error (.artifactNotFound uri) ↔
      w.s3ListObjects (s3BucketArgs uri).1 (s3BucketArgs uri).2 = [])
    ∧ (downloadGcs w uri d = .error (.artifactNotFound uri) ↔
      w.gcsListBlobs (gcsBucketArgs uri).1 (gcsListArg uri) = []) :=
  ⟨downloadS3OnListing_error_iff uri d _, downloadGcsOnListing_error_iff uri d _⟩

/-! ## Claim C2 -/

/-- C2 counterexample: a bare (prefixless) path that does not exist is
not classified as local — `is_local` needs the `file://` marker or an
existing path — so `download` falls through the dispatch chain and fails
with UnrecognizedScheme, not LocalPathNotFound. -/
theorem bare_missing_path_is_unrecognized :
    emptyWorld.pathExists "/nonexistent/path" = false
    ∧ download emptyWorld "/nonexistent/path" none =
        .error (.unrecognizedScheme "/nonexistent/path") :=
  ⟨rfl, rfl⟩

/-- C2 (amended): a nonexistent local path fails with LocalPathNotFound
regardless of the destination argument only when it carries the
`file://` marker (and matches no earlier backend pattern); a bare
nonexistent path is not classified as local and instead fails with
UnrecognizedScheme whenever it matches no backend pattern and is not
under the managed mount point. -/
theorem missing_local_path_error_analysis (w : World) (od : Option String) :
    (∀ p, w.pathExists p = false →
      blobSearch ("file://" ++ p) = none →
      download w ("file://" ++ p) od =
        .error (.localPathNotFound ("file://" ++ p)))
    ∧ (∀ q, w.pathExists q = false →
      pyStartsWith q "file://" = false →
      pyStartsWith q "gs://" = false →
      pyStartsWith q "s3://" = false →
      blobSearch q = none →
      uriReSearch q = false →
      pyStartsWith q MODEL_MOUNT_DIRS = false →
      download w q od = .error (.unrecognizedScheme q)) := by
  constructor
  · intro p hp hblob
    have hlocal : replaceFirst ("file://" ++ p) "file://" "" = p := rfl
    cases od with
    | none =>
      simp only [download]
      rw [show pyStartsWith ("file://" ++ p) "file://" = true from rfl]
      simp only [Bool.true_or, if_pos]
      simp only [downloadLocal, hlocal, hp]
      simp
    | some d =>
      simp only [download, dispatchDownload]
      rw [show pyStartsWith ("file://" ++ p) "gs://" = false from rfl,
          show pyStartsWith ("file://" ++ p) "s3://" = false from rfl,
          hblob,
          show pyStartsWith ("file://" ++ p) "file://" = true from rfl]
      simp only [Option.isSome_none, Bool.false_eq_true, if_false,
        Bool.true_or, if_true]
      simp only [downloadLocal, hlocal, hp]
      simp
  · intro q hq hfile hgs hs3 hblob huri hmnt
    have hdisp : ∀ d, dispatchDownload w q d false =
        .error (.unrecognizedScheme q) := by
      intro d
      simp only [dispatchDownload, hgs, hs3, hblob, huri, hmnt]
      simp
    cases od with
    | none =>
      simp only [download, hfile, hq]
      simpa using hdisp w.tmpDir
    | some d =>
      simp only [download, hfile, hq]
      simpa using hdisp d

/-- Witness for the amended C2 statement at concrete inputs. -/
theorem missing_local_path_error_analysis_witness :
    emptyWorld.pathExists "/some/random/path" = false
    ∧ download emptyWorld "file:///some/random/path" none =
        .error (.localPathNotFound "file:///some/random/path")
    ∧ download emptyWorld "/nonexistent" (some "/out") =
        .error (.unrecognizedScheme "/nonexistent") :=
  ⟨rfl,
   (missing_local_path_error_analysis emptyWorld none).1 "/some/random/path"
     rfl rfl,
   (missing_local_path_error_analysis emptyWorld (some "/out")).2 "/nonexistent"
     rfl rfl rfl rfl rfl rfl rfl⟩

/-! ## Claim C3 -/

/-- C3: for an existing local path `p`, `download("file://" + p)` with no
destination returns `p` unchanged, writing and removing nothing. -/
theorem local_passthrough_returns_path (w : World) (p : String)
    (h : w.pathExists p = true) :
    download w ("file://" ++ p) none = .ok ⟨p, [], []⟩ := by
  simp only [download]
  rw [show pyStartsWith ("file://" ++ p) "file://" = true from rfl]
  simp only [Bool.true_or, if_pos]
  simp only [downloadLocal,
    show replaceFirst ("file://" ++ p) "file://" "" = p from rfl, h]
  simp

/-- Witness for C3 at a concrete world and path. -/
theorem local_passthrough_returns_path_witness :
    allFilesWorld.pathExists "/mnt/m" = true
    ∧ download allFilesWorld "file:///mnt/m" none = .ok ⟨"/mnt/m", [], []⟩ :=
  ⟨rfl, local_passthrough_returns_path allFilesWorld "/mnt/m" rfl⟩

/-! ## Claim C7 -/

/-- C7 counterexample: in the gcs backend a listed blob that is not a
directory marker but whose stripped relative key is empty is skipped —
counted, but not materialized under its full object key — so the
download succeeds with an empty write set. -/
theorem gcs_empty_relative_key_skipped :
    gcsSkipWorld.gcsListBlobs "b" "m/" = ["m"]
    ∧ pyEndsWith "m" "/" = false
    ∧ gcsRelKey "gs://b/m" "m" = ""
    ∧ downloadGcs gcsSkipWorld "gs://b/m" "/out" = .ok [] :=
  ⟨rfl, rfl, rfl, rfl⟩

/-- C7 (amended): the s3 backend materializes every non-directory entry,
falling back to the full object key when the stripped relative key is
empty; the gcs backend instead skips any blob whose stripped relative
key is whitespace-empty, materializing exactly the remaining blobs. -/
theorem objectstore_materialization_paths (w : World) (uri d : String) :
    (∀ ws, downloadS3 w uri d = .ok ws →
      ∀ obj ∈ w.s3ListObjects (s3BucketArgs uri).1 (s3BucketArgs uri).2,
        obj.is_dir = false →
        (if pyStrip (replaceFirst obj.object_name (s3BucketArgs uri).2 "") '/' = ""
         then pathJoin d obj.object_name
         else pathJoin d
           (pyStrip (replaceFirst obj.object_name (s3BucketArgs uri).2 "") '/')) ∈ ws)
    ∧ (∀ ws, downloadGcs w uri d = .ok ws →
      ws = (w.gcsListBlobs (gcsBucketArgs uri).1 (gcsListArg uri)).filterMap
        (fun name =>
          if pyStripWs (gcsRelKey uri name) ≠ "" then
            some (pathJoin d (gcsRelKey uri name))
          else none)) := by
  constructor
  · intro ws hok obj hmem hdir
    have hws : ws = (w.s3ListObjects (s3BucketArgs uri).1 (s3BucketArgs uri).2).filterMap
        (s3ObjectDest (s3BucketArgs uri).2 d) := by
      revert hok
      simp only [downloadS3, downloadS3OnListing]
      split
      · intro hok
        exact absurd hok (fun h => Except.noConfusion h)
      · intro hok
        cases hok
        rfl
    subst hws
    apply List.mem_filterMap.mpr
    refine ⟨obj, hmem, ?_⟩
    simp only [s3ObjectDest, hdir, if_false, Bool.false_eq_true]
    split <;> simp_all
  · intro ws hok
    revert hok
    simp only [downloadGcs, downloadGcsOnListing]
    split
    · intro hok
      exact absurd hok (fun h => Except.noConfusion h)
    · intro hok
      cases hok
      rfl

/-- Witness for the amended C7 statement at concrete inputs: a bucket
path equal to the single object key forces the s3 full-key fallback, and
the same shape on gcs is skipped. -/
theorem objectstore_materialization_paths_witness :
    downloadS3 { emptyWorld with s3ListObjects := fun _ _ => [⟨"m", false⟩] }
        "s3://b/m" "/out" = .ok ["/out/m"]
    ∧ ("/out/m" ∈ (["/out/m"] : List String))
    ∧ downloadGcs gcsSkipWorld "gs://b/m" "/out" = .ok []
    ∧ ([] : List String) =
        (gcsSkipWorld.gcsListBlobs (gcsBucketArgs "gs://b/m").1
            (gcsListArg "gs://b/m")).filterMap
          (fun name =>
            if pyStripWs (gcsRelKey "gs://b/m" name) ≠ "" then
              some (pathJoin "/out" (gcsRelKey "gs://b/m" name))
            else none) :=
  ⟨rfl,
   by
    have h := (objectstore_materialization_paths
      { emptyWorld with s3ListObjects := fun _ _ => [⟨"m", false⟩] }
      "s3://b/m" "/out").1 ["/out/m"] rfl ⟨"m", false⟩ (by simp) rfl
    simp only [show pyStrip (replaceFirst "m" (s3BucketArgs "s3://b/m").2 "") '/' =
      "" from rfl, if_pos] at h
    exact h,
   rfl,
   (objectstore_materialization_paths gcsSkipWorld "gs://b/m" "/out").2 [] rfl⟩

/-! ## Claim C10 -/

/-- C10: the gcs backend hands the listing call the bucket path with a
trailing slash appended when missing (so an empty bucket path lists
under `/`), while each blob's relative key strips the original,
unslashed bucket path. -/
theorem gcs_listing_uses_slashed_path (w : World) (uri d : String) :
    (pyEndsWith (gcsBucketArgs uri).2 "/" = false →
      gcsListArg uri = (gcsBucketArgs uri).2 ++ "/")
    ∧ (pyEndsWith (gcsBucketArgs uri).2 "/" = true →
      gcsListArg uri = (gcsBucketArgs uri).2)
    ∧ gcsListArg "gs://bucket" = "/"
    ∧ downloadGcs w uri d =
        downloadGcsOnListing uri d
          (w.gcsListBlobs (gcsBucketArgs uri).1 (gcsListArg uri))
    ∧ (∀ name, gcsRelKey uri name =
        pyStrip (replaceFirst name (gcsBucketArgs uri).2 "") '/') := by
  refine ⟨?_, ?_, rfl, rfl, fun _ => rfl⟩
  · intro h
    simp only [gcsListArg, h]
    simp
  · intro h
    simp only [gcsListArg, h]
    simp

/-- Witness for C10 at concrete inputs. -/
theorem gcs_listing_uses_slashed_path_witness :
    pyEndsWith (gcsBucketArgs "gs://bucket/model").2 "/" = false
    ∧ gcsListArg "gs://bucket/model" = (gcsBucketArgs "gs://bucket/model").2 ++ "/"
    ∧ pyEndsWith (gcsBucketArgs "gs://bucket/model/").2 "/" = true
    ∧ gcsListArg "gs://bucket/model/" = (gcsBucketArgs "gs://bucket/model/").2 :=
  ⟨rfl,
   (gcs_listing_uses_slashed_path emptyWorld "gs://bucket/model" "/d").1 rfl,
   rfl,
   (gcs_listing_uses_slashed_path emptyWorld "gs://bucket/model/" "/d").2.1 rfl⟩

/-! ## Claim C4 -/

/-- The 200 response of the C4 scenario: a tar content type and a body
that is the gzip compression of a tar archive holding `model.pth`. -/
def tarGzResponse : HttpResponse :=
  ⟨200, "application/x-tar", .gzipped (.tarArchive ["model.pth"])⟩

/-- A world serving `tarGzResponse` for every HTTP fetch. -/
def tarGzWorld : World :=
  { emptyWorld with httpResponse := fun _ => tarGzResponse }

/-- Joining distinct relative basenames of different lengths under the
same directory yields distinct paths. -/
theorem pathJoin_targz_ne (od : String) :
    pathJoin od "model.pth" ≠ pathJoin od "model.tar.gz.tar" := by
  intro h
  simp only [pathJoin,
    show pyStartsWith "model.pth" "/" = false from rfl,
    show pyStartsWith "model.tar.gz.tar" "/" = false from rfl] at h
  by_cases he : od = "" <;> by_cases hs : pyEndsWith od "/" = true <;>
    simp only [he, hs, if_pos, if_neg, if_true, if_false, Bool.false_eq_true] at h <;>
    first
      | exact absurd h (by decide)
      | · have hl := congrArg String.length h
          simp only [String.length_append] at hl
          rw [show ("model.pth" : String).length = 9 from rfl,
            show ("model.tar.gz.tar" : String).length = 16 from rfl] at hl
          omega

/-- C4: downloading `https://host/model.tar.gz` against a 200 tar-typed
response whose body is a gzip-compressed tar of `model.pth` succeeds,
writes the decompressed archive as `model.tar.gz.tar` plus the extracted
`model.pth` under the destination, and removes the archive (and only
the archive), leaving `model.pth` present. -/
theorem http_targz_extracts_and_removes_archive (w : World) (od : String)
    (hresp : w.httpResponse "https://host/model.tar.gz" = tarGzResponse)
    (hex : w.pathExists "https://host/model.tar.gz" = false) :
    download w "https://host/model.tar.gz" (some od) =
      .ok ⟨od, [pathJoin od "model.tar.gz.tar", pathJoin od "model.pth"],
           [pathJoin od "model.tar.gz.tar"]⟩
    ∧ pathJoin od "model.pth" ≠ pathJoin od "model.tar.gz.tar" := by
  constructor
  · have h1 : download w "https://host/model.tar.gz" (some od) =
        downloadFromUri w "https://host/model.tar.gz" od := by
      simp only [download]
      rw [hex]
      rfl
    rw [h1]
    simp only [downloadFromUri]
    rw [hresp]
    rfl
  · exact pathJoin_targz_ne od

/-- Witness for C4 at a concrete world and destination. -/
theorem http_targz_extracts_and_removes_archive_witness :
    tarGzWorld.httpResponse "https://host/model.tar.gz" = tarGzResponse
    ∧ tarGzWorld.pathExists "https://host/model.tar.gz" = false
    ∧ download tarGzWorld "https://host/model.tar.gz" (some "/d") =
        .ok ⟨"/d", ["/d/model.tar.gz.tar", "/d/model.pth"],
             ["/d/model.tar.gz.tar"]⟩ :=
  ⟨rfl, rfl, by
    have h := (http_targz_extracts_and_removes_archive tarGzWorld "/d" rfl rfl).1
    exact h⟩

/-! ## Claim C5 -/

/-- The content-type admissibility rule as the spec words it: the
response content type must start with `application/zip` when the guessed
type is zip, with `application/x-tar` when it is tar, and with
`application/octet-stream` in every other case.  Stated from the spec to
be compared against the embedded checks of `downloadFromUri`. -/
def specRequiredContentTypeOk (mt : Option String) (ct : String) : Bool :=
  if mt = some "application/zip" then pyStartsWith ct "application/zip"
  else if mt = some "application/x-tar" then pyStartsWith ct "application/x-tar"
  else pyStartsWith ct "application/octet-stream"

/-- The write/extract phase of `_download_from_uri` never raises the
content-type error. -/
theorem extractPhase_not_ct (uri od lp u : String) (mt : Option String)
    (b : HttpBody) :
    extractPhase uri od lp mt b ≠ .error (.contentTypeMismatch u) := by
  simp only [extractPhase]
  split
  · split <;> simp
  · split
    · split <;> simp
    · simp

/-- C5: for a 200 response (and a URI carrying a filename), the generic
HTTP download raises ContentTypeMismatch exactly when the response
content type fails the check implied by the guessed media type —
`application/zip` for zip, `application/x-tar` for tar, and
`application/octet-stream` in every other case, unknown extensions
included. -/
theorem http_content_type_mismatch_iff (w : World) (uri od : String)
    (h200 : (w.httpResponse uri).status_code = 200)
    (hfn : osBasename (urlParse uri).path ≠ "") :
    downloadFromUri w uri od = .error (.contentTypeMismatch uri) ↔
      specRequiredContentTypeOk (guessType (urlParse uri).path).1
        (w.httpResponse uri).content_type = false := by
  have hst : ¬ ((w.httpResponse uri).status_code ≠ 200) := by
    rw [h200]; simp
  simp only [downloadFromUri, specRequiredContentTypeOk]
  rw [if_neg hfn, if_neg hst]
  by_cases h1 : (guessType (urlParse uri).path).1 = some "application/zip"
  · have h2 : ¬ ((guessType (urlParse uri).path).1 = some "application/x-tar") := by
      rw [h1]; simp
    by_cases hz : pyStartsWith (w.httpResponse uri).content_type
        "application/zip" = false
    · rw [if_pos ⟨h1, hz⟩]
      simp [h1, hz]
    · rw [if_neg (fun hc => hz hc.2), if_neg (fun hc => h2 hc.1),
        if_neg (fun hc => hc.1.1 h1)]
      refine iff_of_false ?_ ?_
      · intro hcon
        split at hcon
        · split at hcon
          · exact extractPhase_not_ct _ _ _ _ _ _ hcon
          · simp at hcon
        · exact extractPhase_not_ct _ _ _ _ _ _ hcon
      · rw [if_pos h1]
        simp only [Bool.not_eq_false] at hz
        rw [hz]
        simp
  · by_cases h2 : (guessType (urlParse uri).path).1 = some "application/x-tar"
    · by_cases ht : pyStartsWith (w.httpResponse uri).content_type
          "application/x-tar" = false
      · rw [if_neg (fun hc => h1 hc.1), if_pos ⟨h2, ht⟩]
        simp [h1, h2, ht]
      · rw [if_neg (fun hc => h1 hc.1), if_neg (fun hc => ht hc.2),
          if_neg (fun hc => hc.1.2 h2)]
        refine iff_of_false ?_ ?_
        · intro hcon
          split at hcon
          · split at hcon
            · exact extractPhase_not_ct _ _ _ _ _ _ hcon
            · simp at hcon
          · exact extractPhase_not_ct _ _ _ _ _ _ hcon
        · rw [if_neg h1, if_pos h2]
          simp only [Bool.not_eq_false] at ht
          rw [ht]
          simp
    · by_cases ho : pyStartsWith (w.httpResponse uri).content_type
          "application/octet-stream" = false
      · rw [if_neg (fun hc => h1 hc.1), if_neg (fun hc => h2 hc.1),
          if_pos ⟨⟨h1, h2⟩, ho⟩]
        simp [h1, h2, ho]
      · rw [if_neg (fun hc => h1 hc.1), if_neg (fun hc => h2 hc.1),
          if_neg (fun hc => ho hc.2)]
        refine iff_of_false ?_ ?_
        · intro hcon
          split at hcon
          · split at hcon
            · exact extractPhase_not_ct _ _ _ _ _ _ hcon
            · simp at hcon
          · exact extractPhase_not_ct _ _ _ _ _ _ hcon
        · rw [if_neg h1, if_neg h2]
          simp only [Bool.not_eq_false] at ho
          rw [ho]
          simp

/-- Witness for C5: a 200 `text/html` response for an unknown-extension
filename fails the octet-stream requirement, and the download indeed
raises the content-type error. -/
theorem http_content_type_mismatch_iff_witness :
    (({ emptyWorld with
        httpResponse := fun _ => ⟨200, "text/html", .rawBytes "x"⟩ } :
          World).httpResponse "https://some.site.com/test.model").status_code = 200
    ∧ osBasename (urlParse "https://some.site.com/test.model").path ≠ ""
    ∧ (downloadFromUri
        { emptyWorld with
          httpResponse := fun _ => ⟨200, "text/html", .rawBytes "x"⟩ }
        "https://some.site.com/test.model" "/d" =
          .error (.contentTypeMismatch "https://some.site.com/test.model") ↔
      specRequiredContentTypeOk
        (guessType (urlParse "https://some.site.com/test.model").path).1
        "text/html" = false) :=
  ⟨rfl, by decide,
   http_content_type_mismatch_iff
     { emptyWorld with
       httpResponse := fun _ => ⟨200, "text/html", .rawBytes "x"⟩ }
     "https://some.site.com/test.model" "/d" rfl (by decide)⟩

/-! ## Claim C6 -/

/-- No object-store environment overrides set. -/
def noEnv : MinioEnv := ⟨none, none, none, none, none⟩

/-- C6 counterexample: with no environment overrides the minio client is
not constructed with encrypted transport — the default endpoint string
`http://s3.amazonaws.com` carries an explicit `http` scheme, so
`use_ssl` evaluates to `False` (the `S3_USE_HTTPS` default is never
consulted). -/
theorem minio_default_not_secure :
    ¬ ((createMinioClient noEnv).secure = true) := by decide

/-- C6 (amended): with no overrides the client is constructed with the
standard public endpoint and an empty provider-default region, but with
unencrypted transport. -/
theorem minio_default_client_args :
    createMinioClient noEnv =
      { endpoint := "s3.amazonaws.com", access_key := "", secret_key := "",
        region := "", secure := false } := by decide

/-! ## Claim C8 -/

/-- A split on a character absent from the string yields no second
part. -/
theorem pySplitOnce_no_sep (s : String) (c : Char)
    (h : s.toList.all (fun x => x ≠ c) = true) :
    (pySplitOnce s c).2 = none := by
  simp only [pySplitOnce]
  rw [if_pos]
  rw [List.takeWhile_eq_self_iff.mpr]
  intro x hx
  simpa using List.all_eq_true.mp h x hx

/-- C8: a URI matching the blob host pattern whose captured portion
after the host carries no `/` makes `_download_blob`'s
container/key split fail with the tuple-unpacking `ValueError`, an error
outside the documented taxonomy — neither ArtifactNotFound nor
UnrecognizedScheme. -/
theorem blob_missing_container_split_unpack_error (w : World) (uri : String)
    (od : Option String) (acct storage_url : String)
    (hm : blobSearch uri = some (acct, storage_url))
    (hns : storage_url.toList.all (fun x => x ≠ '/') = true)
    (hgs : pyStartsWith uri "gs://" = false)
    (hs3 : pyStartsWith uri "s3://" = false)
    (hfile : pyStartsWith uri "file://" = false)
    (hex : w.pathExists uri = false) :
    download w uri od = .error (.blobUnpackError uri)
    ∧ (∀ u, StorageError.blobUnpackError uri ≠ .artifactNotFound u)
    ∧ (∀ u, StorageError.blobUnpackError uri ≠ .unrecognizedScheme u) := by
  refine ⟨?_, fun u => by simp, fun u => by simp⟩
  have hsplit : (pySplitOnce storage_url '/').2 = none :=
    pySplitOnce_no_sep storage_url '/' hns
  have hblob : ∀ d, downloadBlob w uri d = .error (.blobUnpackError uri) := by
    intro d
    simp only [downloadBlob]
    rw [hm]
    simp only [hsplit]
  have hdisp : ∀ d, dispatchDownload w uri d false =
      .error (.blobUnpackError uri) := by
    intro d
    simp only [dispatchDownload, hgs, hs3, hm]
    simp only [Option.isSome_some, if_true, hblob d]
    rfl
  cases od with
  | none =>
    simp only [download, hfile, hex]
    simpa using hdisp w.tmpDir
  | some d =>
    simp only [download, hfile, hex]
    simpa using hdisp d

/-- Witness for C8 at the concrete container-only blob URI. -/
theorem blob_missing_container_split_unpack_error_witness :
    blobSearch "https://acct.blob.core.windows.net/container" =
      some ("acct", "container")
    ∧ download emptyWorld "https://acct.blob.core.windows.net/container"
        (some "/d") =
        .error (.blobUnpackError "https://acct.blob.core.windows.net/container") :=
  ⟨rfl,
   (blob_missing_container_split_unpack_error emptyWorld
     "https://acct.blob.core.windows.net/container" (some "/d")
     "acct" "container" rfl (by decide) rfl rfl rfl rfl).1⟩

/-! ## Claim C9 -/

/-- C9 counterexample: `https://host//` has no non-empty path segment
after the host, yet the generic URI pattern does match it (group 2 is
the second slash), and the download fails with MissingFilename — so the
pattern can match such URIs, and MissingFilename does not require a
non-empty path component. -/
theorem uri_all_slash_path_reaches_missing_filename :
    uriReSearch "https://host//" = true
    ∧ (urlParse "https://host//").path = "//"
    ∧ (urlParse "https://host//").path.toList.filter (fun c => c ≠ '/') = []
    ∧ download emptyWorld "https://host//" (some "/o") =
        .error (.missingFilename "https://host//") :=
  ⟨rfl, rfl, rfl, rfl⟩

/-- The write/extract phase of `_download_from_uri` never raises the
missing-filename error. -/
theorem extractPhase_not_mf (uri od lp u : String) (mt : Option String)
    (b : HttpBody) :
    extractPhase uri od lp mt b ≠ .error (.missingFilename u) := by
  simp only [extractPhase]
  split
  · split <;> simp
  · split
    · split <;> simp
    · simp

/-- The generic HTTP fetch raises MissingFilename exactly when the
basename of the parsed URI path is empty: the check is the first test of
`_download_from_uri`, and no later code path of it raises that error. -/
theorem downloadFromUri_missingFilename_iff (w : World) (uri d : String) :
    downloadFromUri w uri d = .error (.missingFilename uri) ↔
      osBasename (urlParse uri).path = "" := by
  constructor
  · intro h
    by_contra hne
    revert h
    simp only [downloadFromUri]
    rw [if_neg hne]
    split
    · simp
    · split
      · simp
      · split
        · simp
        · split
          · simp
          · split
            · split
              · exact extractPhase_not_mf _ _ _ _ _ _
              · simp
            · exact extractPhase_not_mf _ _ _ _ _ _
  · intro hfn
    simp only [downloadFromUri]
    rw [if_pos hfn]

/-- C9 (amended): `https://host` and `https://host/` indeed fail the
generic pattern and fall through to UnrecognizedScheme, but the pattern
only needs some slash with a character after it — not a non-empty path
segment — and whenever it matches, MissingFilename is raised exactly
when the parsed path has an empty basename (which all-slash paths such
as `https://host//` also satisfy). -/
theorem generic_uri_error_analysis (w : World) (d : String) :
    (w.pathExists "https://host" = false →
      download w "https://host" (some d) =
        .error (.unrecognizedScheme "https://host"))
    ∧ (w.pathExists "https://host/" = false →
      download w "https://host/" (some d) =
        .error (.unrecognizedScheme "https://host/"))
    ∧ (∀ uri od, uriReSearch uri = true →
        pyStartsWith uri "gs://" = false →
        pyStartsWith uri "s3://" = false →
        blobSearch uri = none →
        pyStartsWith uri "file://" = false →
        w.pathExists uri = false →
        (download w uri od = .error (.missingFilename uri) ↔
          osBasename (urlParse uri).path = "")) := by
  refine ⟨?_, ?_, ?_⟩
  · intro h
    simp only [download]
    rw [h]
    rfl
  · intro h
    simp only [download]
    rw [h]
    rfl
  · intro uri od hre hgs hs3 hblob hfile hex
    have hstep : ∀ d2, dispatchDownload w uri d2 false =
        downloadFromUri w uri d2 := by
      intro d2
      simp only [dispatchDownload, hgs, hs3, hblob, hre]
      simp
    cases od with
    | none =>
      simp only [download, hfile, hex]
      rw [show (false || false) = false from rfl, hstep w.tmpDir]
      simp only [Bool.false_eq_true, if_false]
      exact downloadFromUri_missingFilename_iff w uri w.tmpDir
    | some d2 =>
      simp only [download, hfile, hex]
      rw [show (false || false) = false from rfl, hstep d2]
      exact downloadFromUri_missingFilename_iff w uri d2

/-- Witness for the amended C9 statement at concrete inputs, including
the repository test shape `https://foo.bar/test/`. -/
theorem generic_uri_error_analysis_witness :
    emptyWorld.pathExists "https://host" = false
    ∧ download emptyWorld "https://host" (some "/o") =
        .error (.unrecognizedScheme "https://host")
    ∧ uriReSearch "https://foo.bar/test/" = true
    ∧ (download emptyWorld "https://foo.bar/test/" (some "/o") =
        .error (.missingFilename "https://foo.bar/test/") ↔
       osBasename (urlParse "https://foo.bar/test/").path = "") :=
  ⟨rfl,
   (generic_uri_error_analysis emptyWorld "/o").1 rfl,
   rfl,
   (generic_uri_error_analysis emptyWorld "/o").2.2 "https://foo.bar/test/"
     (some "/o") rfl rfl rfl rfl rfl rfl⟩

end KFServing
